import Mathlib

/-!
Verification of the Model-2 deterministic clinical-reasoning pipeline
(`model2/pipeline/*.py`, `model2/model2_runner.py`) against its
natural-language specification.

The Python modules are shallowly embedded: dictionaries become association
lists preserving insertion order (matching CPython dict semantics), numbers
become exact rationals, and Python `round(x, 3)` becomes rounding half to
even at three decimals on rationals.  Components of the repository that are
only referenced from the analyzed sources (`knowledge_graph.py`,
`priors.py`, `risk_engine.py`) are modelled from the specification where
needed and are marked as such.
-/

/-! ### String helpers

Substring and prefix tests on strings, mirroring Python `in` and
`str.startswith`.  Defined over character lists so that all uses are
executable and provable by computation. -/

/-- `chars_at_front needle hay` is true when `needle` occurs at the start of
`hay` (Python `hay.startswith(needle)` on the character level). -/
def chars_at_front : List Char → List Char → Bool
  | [], _ => true
  | _ :: _, [] => false
  | c :: cs, d :: ds => c == d && chars_at_front cs ds

/-- `chars_has_sub needle hay` is true when `needle` occurs contiguously
anywhere inside `hay` (Python `needle in hay`). -/
def chars_has_sub : List Char → List Char → Bool
  | needle, [] => needle.isEmpty
  | needle, d :: ds => chars_at_front needle (d :: ds) || chars_has_sub needle ds

/-- Python `term in hay`. -/
def str_has_term (hay term : String) : Bool :=
  chars_has_sub term.toList hay.toList

/-- Python `s.startswith(pre)`. -/
def str_starts (s pre : String) : Bool :=
  chars_at_front pre.toList s.toList

/-- Python `sep.join(parts)`. -/
def join_sep (sep : String) : List String → String
  | [] => ""
  | [s] => s
  | s :: rest => s ++ sep ++ join_sep sep rest

/-- Python `s.lower()` (ASCII; all strings under study are ASCII).  Defined
through the character list so that it reduces by computation. -/
def py_lower (s : String) : String := String.mk (s.toList.map Char.toLower)

/-- Python `s.upper()` (ASCII). -/
def py_upper (s : String) : String := String.mk (s.toList.map Char.toUpper)

/-! ### Python rounding

Python `round(x, 3)` rounds half to even.  We model it exactly on rationals
(the source works with floats; all claims under study concern threshold and
ordering logic, not binary floating-point representation artifacts). -/

/-- Round a rational to the nearest integer, ties to even. -/
def round_half_even (q : ℚ) : ℤ :=
  if q - (⌊q⌋ : ℚ) < 1/2 then ⌊q⌋
  else if (1/2 : ℚ) < q - (⌊q⌋ : ℚ) then ⌊q⌋ + 1
  else if ⌊q⌋ % 2 = 0 then ⌊q⌋ else ⌊q⌋ + 1

/-- Python `round(q, 3)`. -/
def py_round3 (q : ℚ) : ℚ :=
  (round_half_even (q * 1000) : ℚ) / 1000

theorem round_half_even_ge_floor (q : ℚ) : ⌊q⌋ ≤ round_half_even q := by
  unfold round_half_even
  split_ifs <;> omega

theorem round_half_even_le_floor_add_one (q : ℚ) :
    round_half_even q ≤ ⌊q⌋ + 1 := by
  unfold round_half_even
  split_ifs <;> omega

theorem round_half_even_intCast (n : ℤ) : round_half_even (n : ℚ) = n := by
  unfold round_half_even
  rw [Int.floor_intCast]
  have h : (n : ℚ) - (n : ℚ) = 0 := by ring
  rw [h]
  norm_num

theorem round_half_even_mono {a b : ℚ} (h : a ≤ b) :
    round_half_even a ≤ round_half_even b := by
  have hf : ⌊a⌋ ≤ ⌊b⌋ := Int.floor_mono h
  rcases eq_or_lt_of_le hf with heq | hlt
  · unfold round_half_even
    rw [← heq]
    have hr : a - (⌊a⌋ : ℚ) ≤ b - (⌊a⌋ : ℚ) := by linarith
    split_ifs <;> first | omega | (exfalso; linarith)
  · calc round_half_even a ≤ ⌊a⌋ + 1 := round_half_even_le_floor_add_one a
      _ ≤ ⌊b⌋ := by omega
      _ ≤ round_half_even b := round_half_even_ge_floor b

theorem py_round3_mono {a b : ℚ} (h : a ≤ b) : py_round3 a ≤ py_round3 b := by
  unfold py_round3
  have h := @round_half_even_mono (a * 1000) (b * 1000) (by linarith)
  have h2 : ((round_half_even (a * 1000) : ℤ) : ℚ) ≤ ((round_half_even (b * 1000) : ℤ) : ℚ) := by
    exact_mod_cast h
  linarith

theorem py_round3_zero : py_round3 0 = 0 := by
  unfold py_round3
  have : (0:ℚ) * 1000 = ((0:ℤ) : ℚ) := by norm_num
  rw [this, round_half_even_intCast]
  norm_num

theorem py_round3_one : py_round3 1 = 1 := by
  unfold py_round3
  have : (1:ℚ) * 1000 = ((1000:ℤ) : ℚ) := by norm_num
  rw [this, round_half_even_intCast]
  norm_num

theorem py_round3_nonneg {q : ℚ} (h : 0 ≤ q) : 0 ≤ py_round3 q := by
  have := py_round3_mono h
  rwa [py_round3_zero] at this

theorem py_round3_le_one {q : ℚ} (h : q ≤ 1) : py_round3 q ≤ 1 := by
  have := py_round3_mono h
  rwa [py_round3_one] at this

/-! ### SeverityClassifier (`model2/pipeline/severity.py`, `label_from_range`)

The source resolves the reference range through
`priors.get_reference_range` (a module not among the analyzed sources);
here the resolved range is passed as an argument, which is exactly what the
claims quantify over.  The `unparseable` branch guards Python `float()`
coercion of an untyped value and is unreachable in this typed embedding. -/

structure SeverityResult where
  value : Option ℚ
  label : String
  note : String
  distance : Option ℚ
deriving Repr, DecidableEq

/-- Stand-in rendering of a rational for note strings (the source formats
floats; no claim depends on the note text). -/
def qstr (q : ℚ) : String := toString q

def range_note (v low high : ℚ) (units : String) : String :=
  qstr v ++ " " ++ units ++ " (reference " ++ qstr low ++ " - " ++ qstr high ++ " " ++ units ++ ")"

def label_from_range (ref : Option (ℚ × ℚ × String)) (value : Option ℚ) :
    SeverityResult :=
  match value with
  | none => ⟨none, "missing", "No value", none⟩
  | some v =>
    match ref with
    | none => ⟨some v, "unknown_range", "No reference range", none⟩
    | some (low, high, units) =>
      if v < low then
        { value := some v
          label := if v < (1/2) * low then "very_severe_low"
                   else if v < (7/10) * low then "severe_low" else "low"
          note := range_note v low high units
          distance := some (v - low) }
      else if v > high then
        { value := some v
          label := if v > 2 * high then "very_severe_high"
                   else if v > (3/2) * high then "severe_high" else "high"
          note := range_note v low high units
          distance := some (v - high) }
      else
        let span : ℚ := if high ≠ low then high - low else if high ≠ 0 then high else 1
        let border : ℚ := (1/20) * span
        { value := some v
          label := if v - low ≤ border then "borderline_low"
                   else if high - v ≤ border then "borderline_high" else "normal"
          note := range_note v low high units
          distance := some 0 }

/-- C4: with a resolved reference range `0 < low < high`, the classifier
returns `very_severe_low` below half of `low` and `very_severe_high` above
twice `high`, `severe_low`/`severe_high` in the `0.7×`/`1.5×` bands,
borderline labels within 5% of an in-range edge, and `normal` otherwise. -/
theorem C4_label_thresholds (low high v : ℚ) (units : String)
    (hlow : 0 < low) (hlh : low < high) :
    (v < (1/2) * low →
      (label_from_range (some (low, high, units)) (some v)).label = "very_severe_low") ∧
    (2 * high < v →
      (label_from_range (some (low, high, units)) (some v)).label = "very_severe_high") ∧
    ((1/2) * low ≤ v → v < (7/10) * low →
      (label_from_range (some (low, high, units)) (some v)).label = "severe_low") ∧
    ((3/2) * high < v → v ≤ 2 * high →
      (label_from_range (some (low, high, units)) (some v)).label = "severe_high") ∧
    (low ≤ v → v ≤ high → v - low ≤ (1/20) * (high - low) →
      (label_from_range (some (low, high, units)) (some v)).label = "borderline_low") ∧
    (low ≤ v → v ≤ high → high - v ≤ (1/20) * (high - low) →
      (label_from_range (some (low, high, units)) (some v)).label = "borderline_high") ∧
    (low ≤ v → v ≤ high → (1/20) * (high - low) < v - low →
      (1/20) * (high - low) < high - v →
      (label_from_range (some (low, high, units)) (some v)).label = "normal") := by
  have hne : high ≠ low := ne_of_gt hlh
  refine ⟨?_, ?_, ?_, ?_, ?_, ?_, ?_⟩ <;> intro h1 <;>
    (try intro h2) <;> (try intro h3) <;> (try intro h4) <;>
    simp only [label_from_range, hne, if_true, ne_eq, not_false_iff] <;>
    split_ifs <;> first | rfl | (exfalso; linarith)

/-- Witness for `C4_label_thresholds` at `low = 10`, `high = 20`, `v = 4`. -/
theorem C4_label_thresholds_witness :
    (0:ℚ) < 10 ∧ (10:ℚ) < 20 ∧ (4:ℚ) < (1/2) * 10 ∧
    (label_from_range (some ((10:ℚ), (20:ℚ), "mg/dL")) (some 4)).label = "very_severe_low" :=
  ⟨by norm_num, by norm_num, by norm_num,
    (C4_label_thresholds 10 20 4 "mg/dL" (by norm_num) (by norm_num)).1 (by norm_num)⟩

/-! ### Guardrail (`model2/pipeline/guardrails.py`)

JSON-shaped documents are embedded as a mutual inductive family: values,
arrays, and objects (association lists in insertion order, as CPython
dicts). -/

mutual
inductive JVal where
  | jstr (s : String)
  | jnum (q : ℚ)
  | jbool (b : Bool)
  | jnull
  | jarr (xs : JList)
  | jobj (o : JObj)
deriving DecidableEq
inductive JList where
  | jnil
  | jcons (x : JVal) (xs : JList)
deriving DecidableEq
inductive JObj where
  | onil
  | ocons (k : String) (v : JVal) (rest : JObj)
deriving DecidableEq
end

/-- Python `o.get(k)` on a dict. -/
def jobj_get : JObj → String → Option JVal
  | .onil, _ => none
  | .ocons k' v rest, k => if k' == k then some v else jobj_get rest k

/-- Python `o[k] = v` on a dict: update in place if the key exists,
otherwise append (CPython insertion-order semantics). -/
def jobj_set : JObj → String → JVal → JObj
  | .onil, k, v => .ocons k v .onil
  | .ocons k' v' rest, k, v =>
    if k' == k then .ocons k' v rest else .ocons k' v' (jobj_set rest k v)

/-- Python `o.pop(k)`: remove the entry with key `k`. -/
def jobj_remove : JObj → String → JObj
  | .onil, _ => .onil
  | .ocons k' v rest, k =>
    if k' == k then rest else .ocons k' v (jobj_remove rest k)

def FORBIDDEN_TERMS : List String :=
  ["prescribe", "dosage", "dose", "recommend medication", "start metformin", "start statin"]

def REDACTED : String := "[REDACTED_BY_GUARDRAILS]"

/-- `any(t in v.lower() for t in FORBIDDEN_TERMS)`. -/
def hits_forbidden (v : String) : Bool :=
  FORBIDDEN_TERMS.any (fun t => str_has_term (py_lower v) t)

def redact_if_forbidden (v : String) : String :=
  if hits_forbidden v then REDACTED else v

mutual
/-- `sanitize_obj` from the source: inside a dict, string values are checked
against the forbidden-term list and replaced by the redaction marker on a
match, while non-string values are recursed into; inside a list, each item
is recursed into (so a string sitting directly in a list falls through the
non-dict non-list case and is left untouched); scalars are untouched. -/
def sanitize_obj : JVal → JVal
  | .jobj o => .jobj (sanitize_entries o)
  | .jarr xs => .jarr (sanitize_items xs)
  | v => v
def sanitize_entries : JObj → JObj
  | .onil => .onil
  | .ocons k (.jstr s) rest => .ocons k (.jstr (redact_if_forbidden s)) (sanitize_entries rest)
  | .ocons k v rest => .ocons k (sanitize_obj v) (sanitize_entries rest)
def sanitize_items : JList → JList
  | .jnil => .jnil
  | .jcons x xs => .jcons (sanitize_obj x) (sanitize_items xs)
end

/-- `sanitize_output` from the source: shallow copy, rename any top-level
`recommendations` key, then run `sanitize_obj` over the document. -/
def sanitize_output (output : JObj) : JObj :=
  let cleaned :=
    match jobj_get output "recommendations" with
    | some v => jobj_set (jobj_remove output "recommendations")
        "recommendations_removed_by_guardrails" v
    | none => output
  sanitize_entries cleaned

mutual
/-- Does the word `metformin` occur (case-insensitively) in any string leaf
of the document? -/
def jval_has_metformin : JVal → Bool
  | .jstr s => str_has_term (py_lower s) "metformin"
  | .jarr xs => jlist_has_metformin xs
  | .jobj o => jobj_has_metformin o
  | _ => false
def jobj_has_metformin : JObj → Bool
  | .onil => false
  | .ocons _ v rest => jval_has_metformin v || jobj_has_metformin rest
def jlist_has_metformin : JList → Bool
  | .jnil => false
  | .jcons x xs => jval_has_metformin x || jlist_has_metformin xs
end

mutual
/-- Every string leaf sitting as a dict value, anywhere in the document, is
free of forbidden terms. -/
def jval_dvals_clean : JVal → Bool
  | .jarr xs => jlist_dvals_clean xs
  | .jobj o => jobj_dvals_clean o
  | _ => true
def jobj_dvals_clean : JObj → Bool
  | .onil => true
  | .ocons _ (.jstr s) rest => !hits_forbidden s && jobj_dvals_clean rest
  | .ocons _ v rest => jval_dvals_clean v && jobj_dvals_clean rest
def jlist_dvals_clean : JList → Bool
  | .jnil => true
  | .jcons x xs => jval_dvals_clean x && jlist_dvals_clean xs
end

theorem hits_forbidden_redact (s : String) :
    hits_forbidden (redact_if_forbidden s) = false := by
  unfold redact_if_forbidden
  by_cases h : hits_forbidden s = true
  · rw [if_pos h]
    decide
  · rw [if_neg h]
    simp only [Bool.not_eq_true] at h
    exact h

mutual
theorem clean_sanitize_obj : ∀ v, jval_dvals_clean (sanitize_obj v) = true
  | .jstr _ => rfl
  | .jnum _ => rfl
  | .jbool _ => rfl
  | .jnull => rfl
  | .jarr xs => by
      simp only [sanitize_obj, jval_dvals_clean]
      exact clean_sanitize_items xs
  | .jobj o => by
      simp only [sanitize_obj, jval_dvals_clean]
      exact clean_sanitize_entries o
theorem clean_sanitize_entries : ∀ o, jobj_dvals_clean (sanitize_entries o) = true
  | .onil => rfl
  | .ocons k (.jstr s) rest => by
      simp only [sanitize_entries, jobj_dvals_clean, Bool.and_eq_true, Bool.not_eq_true']
      exact ⟨hits_forbidden_redact s, clean_sanitize_entries rest⟩
  | .ocons k (.jnum q) rest => by
      simp only [sanitize_entries, sanitize_obj, jobj_dvals_clean, Bool.and_eq_true]
      exact ⟨rfl, clean_sanitize_entries rest⟩
  | .ocons k (.jbool b) rest => by
      simp only [sanitize_entries, sanitize_obj, jobj_dvals_clean, Bool.and_eq_true]
      exact ⟨rfl, clean_sanitize_entries rest⟩
  | .ocons k .jnull rest => by
      simp only [sanitize_entries, sanitize_obj, jobj_dvals_clean, Bool.and_eq_true]
      exact ⟨rfl, clean_sanitize_entries rest⟩
  | .ocons k (.jarr xs) rest => by
      simp only [sanitize_entries, sanitize_obj, jobj_dvals_clean, jval_dvals_clean,
        Bool.and_eq_true]
      exact ⟨clean_sanitize_items xs, clean_sanitize_entries rest⟩
  | .ocons k (.jobj o) rest => by
      simp only [sanitize_entries, sanitize_obj, jobj_dvals_clean, jval_dvals_clean,
        Bool.and_eq_true]
      exact ⟨clean_sanitize_entries o, clean_sanitize_entries rest⟩
theorem clean_sanitize_items : ∀ xs, jlist_dvals_clean (sanitize_items xs) = true
  | .jnil => rfl
  | .jcons x xs => by
      simp only [sanitize_items, jlist_dvals_clean, Bool.and_eq_true]
      exact ⟨clean_sanitize_obj x, clean_sanitize_items xs⟩
end

/-- A concrete document on which the C1 claim fails: a note mentioning
metformin outside any drug-start phrase, and a list entry holding the exact
phrase `start metformin`. -/
def c1_doc : JObj :=
  .ocons "notes"
    (.jobj (.ocons "HbA1c" (.jstr "patient previously took metformin") .onil))
    (.ocons "support" (.jarr (.jcons (.jstr "please start metformin") .jnil)) .onil)

/-- C1 counterexample: after sanitization the word `metformin` still occurs
in the output — the note `patient previously took metformin` contains no
forbidden term so it is kept verbatim, and the string `please start
metformin` sits directly inside a list, which `sanitize_obj` never
inspects. -/
theorem C1_counterexample :
    jobj_has_metformin (sanitize_output c1_doc) = true ∧
    jobj_get (sanitize_output c1_doc) "support" =
      some (.jarr (.jcons (.jstr "please start metformin") .jnil)) := by
  constructor
  · decide
  · decide

/-- C1 amended: every string that occurs as a dict value, at any nesting
depth, is free of forbidden terms after sanitization (a matching value is
replaced by the redaction marker); strings directly inside lists are not
inspected, and `metformin` outside a forbidden phrase is retained. -/
theorem C1_dict_values_sanitized (output : JObj) :
    jobj_dvals_clean (sanitize_output output) = true := by
  unfold sanitize_output
  exact clean_sanitize_entries _

/-! ### ConfidenceAggregator (`model2/pipeline/confidence.py`) -/

/-- One entry of the ranked probable-causes list. -/
structure Cause where
  cause : String
  score : ℚ
  support : List String
  source : String
deriving Repr, DecidableEq

/-- One entry of the PatternEngine output map.  Optional fields reflect that
the source builds heterogeneous dicts per pattern. -/
structure PatternInfo where
  present : Bool
  ptype : Option String := none
  isolated : Option Bool := none
  severity : Option String := none
  support : List String := []
  note : Option String := none
  details : List (String × SeverityResult) := []
deriving Repr, DecidableEq

/-- The `{"patterns": {...}}` wrapper returned by `detect_patterns`. -/
structure PatternsOut where
  patterns : List (String × PatternInfo)
deriving Repr, DecidableEq

/-- The `{"causes": [...], "raw_scores": {...}}` dict returned by
`infer_probable_causes`. -/
structure ProbableOut where
  causes : List Cause
  raw_scores : List (String × ℚ)
deriving Repr, DecidableEq

def IGNORED_KEYS : List String :=
  ["age", "gender", "patient_id", "filename", "report_date"]

/-- `_parameter_presence_score`: fraction of non-metadata keys with a
non-null value, 0 when there are none. -/
def parameter_presence_score (params : List (String × Option ℚ)) : ℚ :=
  let counted := params.filter (fun kv => !(IGNORED_KEYS.contains kv.1))
  let total := counted.length
  let present := (counted.filter (fun kv => kv.2.isSome)).length
  if total = 0 then 0 else py_round3 (min 1 ((present : ℚ) / (total : ℚ)))

/-- Per-pattern weight in `_pattern_strength`: `1.0` when the `severity`
field is a non-empty string containing `severe`, else `0.5`. -/
def severity_weight (info : PatternInfo) : ℚ :=
  match info.severity with
  | some s => if s ≠ "" ∧ str_has_term s "severe" then 1 else 1/2
  | none => 1/2

/-- `_pattern_strength`. -/
def pattern_strength (po : PatternsOut) : ℚ :=
  if po.patterns.isEmpty then 0
  else
    let presentOnes := po.patterns.filter (fun kv => kv.2.present)
    let count := presentOnes.length
    let weight := presentOnes.foldl (fun acc kv => acc + severity_weight kv.2) 0
    if count = 0 then 0 else py_round3 (min 1 (weight / (count : ℚ)))

/-- `_kg_top_score`. -/
def kg_top_score (po : ProbableOut) : ℚ :=
  match po.causes with
  | [] => 0
  | c :: _ => c.score

def HIGH_CONFIDENCE_TEXT : String :=
  "High confidence due to complete and consistent laboratory evidence."

def MISSING_GENERIC_TEXT : String :=
  "several relevant laboratory parameters are missing, limiting diagnostic certainty"

def WEAK_PATTERN_TEXT : String :=
  "some detected patterns overlap or lack confirmatory markers"

/-- The caveat naming up to six missing parameters. -/
def missing_list_text (missing_params : List String) : String :=
  "missing parameters include: " ++ join_sep ", " (missing_params.take 6) ++
    (if missing_params.length > 6 then "..." else "")

/-- `build_confidence_explanation` from the source.  Note that the caveat
listing missing parameter names is appended whenever `missing_params` is
non-empty, independently of the presence threshold. -/
def build_confidence_explanation (presence pattern : ℚ)
    (missing_params : List String) : String :=
  let reasons :=
    (if presence < 1/2 then [MISSING_GENERIC_TEXT] else []) ++
    (if pattern < 7/10 then [WEAK_PATTERN_TEXT] else []) ++
    (if missing_params.isEmpty then [] else [missing_list_text missing_params])
  if reasons.isEmpty then HIGH_CONFIDENCE_TEXT
  else "Moderate confidence because " ++ join_sep "; " reasons ++ "."

/-- The dict returned by `compute_confidence` (components inlined). -/
structure ConfidenceOut where
  score : ℚ
  presence : ℚ
  pattern : ℚ
  kg : ℚ
  explanation : String
deriving Repr, DecidableEq

/-- `compute_confidence` from the source. -/
def compute_confidence (params : List (String × Option ℚ))
    (patterns : PatternsOut) (probable : ProbableOut)
    (missing_params : List String) : ConfidenceOut :=
  let presence := parameter_presence_score params
  let pattern := pattern_strength patterns
  let kg := kg_top_score probable
  { score := py_round3 ((4/10) * presence + (4/10) * pattern + (2/10) * kg)
    presence := presence
    pattern := pattern
    kg := kg
    explanation := build_confidence_explanation presence pattern missing_params }

/-- A moderate-confidence sentence is never the canned high-confidence
sentence (they differ in their first character). -/
theorem moderate_append_ne_high (a b : String) :
    ("Moderate confidence because " ++ a ++ b) ≠ HIGH_CONFIDENCE_TEXT := by
  intro h
  have h1 : ("Moderate confidence because " ++ a ++ b).toList.head? =
      HIGH_CONFIDENCE_TEXT.toList.head? := by rw [h]
  have h2 : ("Moderate confidence because " ++ a ++ b).toList.head? = some 'M' := rfl
  have h3 : HIGH_CONFIDENCE_TEXT.toList.head? = some 'H' := rfl
  rw [h2, h3] at h1
  exact absurd h1 (by decide)

/-- C9 counterexample: with `presence = 0.9 ≥ 0.5` and `pattern = 0.9 ≥
0.7` but a non-empty missing-parameter list, the source does not return the
canned high-confidence sentence; the missing-name caveat fires
independently of the presence threshold. -/
theorem C9_counterexample :
    build_confidence_explanation (9/10) (9/10) ["Hemoglobin"] =
      "Moderate confidence because missing parameters include: Hemoglobin." ∧
    build_confidence_explanation (9/10) (9/10) ["Hemoglobin"] ≠
      HIGH_CONFIDENCE_TEXT := by
  have hp : ¬ ((9:ℚ)/10 < 1/2) := by norm_num
  have hq : ¬ ((9:ℚ)/10 < 7/10) := by norm_num
  unfold build_confidence_explanation
  rw [if_neg hp, if_neg hq]
  constructor
  · decide
  · decide

/-- C9 amended: the canned high-confidence sentence is returned exactly
when `presence ≥ 0.5`, `pattern ≥ 0.7` and the missing-parameter list is
empty; whenever the missing-parameter list is non-empty the explanation is
a moderate-confidence sentence carrying the caveat that lists up to six
missing names (with an ellipsis beyond six), regardless of `presence`. -/
theorem C9_explanation_thresholds (presence pattern : ℚ)
    (missing_params : List String) :
    (build_confidence_explanation presence pattern missing_params =
        HIGH_CONFIDENCE_TEXT ↔
      1/2 ≤ presence ∧ 7/10 ≤ pattern ∧ missing_params = []) ∧
    (missing_params ≠ [] →
      ∃ mid, build_confidence_explanation presence pattern missing_params =
        "Moderate confidence because " ++
          (mid ++ missing_list_text missing_params) ++ ".") := by
  simp only [build_confidence_explanation]
  by_cases hm : missing_params = []
  · subst hm
    by_cases hp : presence < 1/2 <;> by_cases hq : pattern < 7/10
    · rw [if_pos hp, if_pos hq]
      exact ⟨⟨fun h => absurd h (moderate_append_ne_high _ _),
        fun h => absurd h.1 (not_le.mpr hp)⟩, fun h => absurd rfl h⟩
    · rw [if_pos hp, if_neg hq]
      exact ⟨⟨fun h => absurd h (moderate_append_ne_high _ _),
        fun h => absurd h.1 (not_le.mpr hp)⟩, fun h => absurd rfl h⟩
    · rw [if_neg hp, if_pos hq]
      exact ⟨⟨fun h => absurd h (moderate_append_ne_high _ _),
        fun h => absurd h.2.1 (not_le.mpr hq)⟩, fun h => absurd rfl h⟩
    · rw [if_neg hp, if_neg hq]
      exact ⟨⟨fun _ => ⟨not_lt.mp hp, not_lt.mp hq, rfl⟩, fun _ => rfl⟩,
        fun h => absurd rfl h⟩
  · have hm3 : ¬ (missing_params.isEmpty = true) := by simpa using hm
    rw [if_neg hm3]
    by_cases hp : presence < 1/2 <;> by_cases hq : pattern < 7/10
    · rw [if_pos hp, if_pos hq]
      exact ⟨⟨fun h => absurd h (moderate_append_ne_high _ _),
        fun h => absurd h.2.2 hm⟩,
        fun _ => ⟨MISSING_GENERIC_TEXT ++ "; " ++ (WEAK_PATTERN_TEXT ++ "; "), rfl⟩⟩
    · rw [if_pos hp, if_neg hq]
      exact ⟨⟨fun h => absurd h (moderate_append_ne_high _ _),
        fun h => absurd h.2.2 hm⟩,
        fun _ => ⟨MISSING_GENERIC_TEXT ++ "; ", rfl⟩⟩
    · rw [if_neg hp, if_pos hq]
      exact ⟨⟨fun h => absurd h (moderate_append_ne_high _ _),
        fun h => absurd h.2.2 hm⟩,
        fun _ => ⟨WEAK_PATTERN_TEXT ++ "; ", rfl⟩⟩
    · rw [if_neg hp, if_neg hq]
      exact ⟨⟨fun h => absurd h (moderate_append_ne_high _ _),
        fun h => absurd h.2.2 hm⟩,
        fun _ => ⟨"", rfl⟩⟩

theorem severity_weight_nonneg (info : PatternInfo) : 0 ≤ severity_weight info := by
  unfold severity_weight
  rcases info.severity with _ | s
  · norm_num
  · dsimp only
    split_ifs <;> norm_num

theorem foldl_weight_nonneg :
    ∀ (l : List (String × PatternInfo)) (acc : ℚ), 0 ≤ acc →
      0 ≤ l.foldl (fun a kv => a + severity_weight kv.2) acc
  | [], _, h => h
  | x :: xs, acc, h => by
    apply foldl_weight_nonneg xs
    show 0 ≤ acc + severity_weight x.2
    have := severity_weight_nonneg x.2
    linarith

theorem presence_score_nonneg (params : List (String × Option ℚ)) :
    0 ≤ parameter_presence_score params := by
  simp only [parameter_presence_score]
  split_ifs
  · norm_num
  · apply py_round3_nonneg
    apply le_min (by norm_num)
    positivity

theorem presence_score_le_one (params : List (String × Option ℚ)) :
    parameter_presence_score params ≤ 1 := by
  simp only [parameter_presence_score]
  split_ifs
  · norm_num
  · exact py_round3_le_one (min_le_left _ _)

theorem pattern_strength_nonneg (po : PatternsOut) : 0 ≤ pattern_strength po := by
  simp only [pattern_strength]
  split_ifs
  · norm_num
  · norm_num
  · apply py_round3_nonneg
    apply le_min (by norm_num)
    apply div_nonneg (foldl_weight_nonneg _ _ (le_refl (0:ℚ)))
    positivity

theorem pattern_strength_le_one (po : PatternsOut) : pattern_strength po ≤ 1 := by
  simp only [pattern_strength]
  split_ifs
  · norm_num
  · norm_num
  · exact py_round3_le_one (min_le_left _ _)

/-- C5 amended: the confidence score is always
`round(0.4*presence + 0.4*pattern + 0.2*kg, 3)`; the presence and pattern
components always lie in `[0,1]`, and the overall score lies in `[0,1]`
whenever the top cause score does (as the pipeline guarantees after
normalization — the `kg` component itself is not clamped); with no
non-metadata parameter keys the presence component is `0`, and the score is
`0` when additionally no patterns and no causes are present. -/
theorem C5_confidence_formula (params : List (String × Option ℚ))
    (patterns : PatternsOut) (probable : ProbableOut)
    (missing_params : List String) :
    ((compute_confidence params patterns probable missing_params).score =
      py_round3 ((4/10) * parameter_presence_score params +
        (4/10) * pattern_strength patterns + (2/10) * kg_top_score probable)) ∧
    (0 ≤ kg_top_score probable → kg_top_score probable ≤ 1 →
      0 ≤ (compute_confidence params patterns probable missing_params).score ∧
        (compute_confidence params patterns probable missing_params).score ≤ 1) ∧
    (params.filter (fun kv => !(IGNORED_KEYS.contains kv.1)) = [] →
      (compute_confidence params patterns probable missing_params).presence = 0) ∧
    (params.filter (fun kv => !(IGNORED_KEYS.contains kv.1)) = [] →
      patterns.patterns = [] → probable.causes = [] →
      (compute_confidence params patterns probable missing_params).score = 0) := by
  refine ⟨rfl, ?_, ?_, ?_⟩
  · intro hk0 hk1
    have hp0 := presence_score_nonneg params
    have hp1 := presence_score_le_one params
    have hq0 := pattern_strength_nonneg patterns
    have hq1 := pattern_strength_le_one patterns
    constructor
    · apply py_round3_nonneg
      positivity
    · apply py_round3_le_one
      linarith
  · intro hfil
    show parameter_presence_score params = 0
    simp only [parameter_presence_score, hfil]
    rfl
  · intro hfil hpat hcau
    show py_round3 _ = 0
    have h1 : parameter_presence_score params = 0 := by
      simp only [parameter_presence_score, hfil]
      rfl
    have h2 : pattern_strength patterns = 0 := by
      simp only [pattern_strength, hpat]
      rfl
    have h3 : kg_top_score probable = 0 := by
      simp only [kg_top_score, hcau]
    rw [h1, h2, h3]
    norm_num [py_round3_zero]

/-- Witness for `C5_confidence_formula` on the empty inputs. -/
theorem C5_confidence_formula_witness :
    (0 ≤ kg_top_score ⟨[], []⟩ ∧ kg_top_score ⟨[], []⟩ ≤ 1 ∧
      ([] : List (String × Option ℚ)).filter (fun kv => !(IGNORED_KEYS.contains kv.1)) = []) ∧
    (0 ≤ (compute_confidence [] ⟨[]⟩ ⟨[], []⟩ []).score ∧
      (compute_confidence [] ⟨[]⟩ ⟨[], []⟩ []).score ≤ 1) ∧
    (compute_confidence [] ⟨[]⟩ ⟨[], []⟩ []).score = 0 :=
  ⟨⟨le_refl 0, by norm_num [kg_top_score], rfl⟩,
    (C5_confidence_formula [] ⟨[]⟩ ⟨[], []⟩ []).2.1 (le_refl 0) (by norm_num [kg_top_score]),
    (C5_confidence_formula [] ⟨[]⟩ ⟨[], []⟩ []).2.2.2 rfl rfl rfl⟩

/-- A probable-causes result with an (out-of-range) top score of 10, as an
adversarial input to `compute_confidence`. -/
def c5_probable : ProbableOut := ⟨[⟨"X", 10, [], "kg"⟩], [("X", 10)]⟩

/-- C5 counterexample: `compute_confidence` does not clamp the `kg`
component, so with a top cause score of 10 the returned score is 2, outside
`[0,1]`; the input also has an empty parameter map yet a non-zero score,
falsifying the claim that an empty parameter map forces score `0`. -/
theorem C5_counterexample :
    (compute_confidence [] ⟨[]⟩ c5_probable []).score = 2 ∧
    ¬ ((compute_confidence [] ⟨[]⟩ c5_probable []).score ≤ 1) ∧
    (compute_confidence [] ⟨[]⟩ c5_probable []).score ≠ 0 := by
  have h : (compute_confidence [] ⟨[]⟩ c5_probable []).score = 2 := by
    show py_round3 ((4/10) * parameter_presence_score [] +
      (4/10) * pattern_strength ⟨[]⟩ + (2/10) * kg_top_score c5_probable) = 2
    have h1 : parameter_presence_score [] = 0 := rfl
    have h2 : pattern_strength ⟨[]⟩ = 0 := rfl
    have h3 : kg_top_score c5_probable = 10 := rfl
    rw [h1, h2, h3]
    norm_num [py_round3, round_half_even]
  exact ⟨h, by rw [h]; norm_num, by rw [h]; norm_num⟩

/-! ### KnowledgeGraph + ProbableCauseRanker
(`model2/pipeline/probable_causes.py`, `infer_probable_causes`)

The edge table and `query` come from `knowledge_graph.py`, which is not
among the analyzed sources; `query` is modelled from the spec.  The
accumulation, prior fusion, normalization and sorting below embed the body
of `infer_probable_causes` itself. -/

structure Edge where
  source : String
  relation : String
  target : String
  weight : ℚ
deriving Repr, DecidableEq

/-- Modelled from the spec: `KnowledgeGraph.query(observation)` returns the
outgoing edges of an observation node deterministically in table order
(`knowledge_graph.py` is not among the analyzed sources). -/
def kg_query (kg : List Edge) (obs : String) : List Edge :=
  kg.filter (fun e => e.source == obs)

/-- Python `m.get(k, d)` on a `str -> float` dict. -/
def dict_getD (m : List (String × ℚ)) (k : String) (d : ℚ) : ℚ :=
  match m with
  | [] => d
  | (k', v) :: rest => if k' == k then v else dict_getD rest k d

/-- Python `m[k] = v` on a `str -> float` dict (insertion order kept). -/
def dict_set (m : List (String × ℚ)) (k : String) (v : ℚ) : List (String × ℚ) :=
  match m with
  | [] => [(k, v)]
  | (k', v') :: rest => if k' == k then (k', v) :: rest else (k', v') :: dict_set rest k v

/-- One edge of the accumulation loop:
`combined[target] = min(1.0, combined.get(target, 0.0) + weight * 0.8)`. -/
def accumulate_step (m : List (String × ℚ)) (e : Edge) : List (String × ℚ) :=
  dict_set m e.target (min 1 (dict_getD m e.target 0 + e.weight * (8/10)))

/-- Python `support.setdefault(target, []).append(s)`. -/
def supp_add (m : List (String × List String)) (k : String) (s : String) :
    List (String × List String) :=
  match m with
  | [] => [(k, [s])]
  | (k', l) :: rest =>
    if k' == k then (k', l ++ [s]) :: rest else (k', l) :: supp_add rest k s

/-- Python `support.get(cause, [])`. -/
def supp_get (m : List (String × List String)) (k : String) : List String :=
  match m with
  | [] => []
  | (k', l) :: rest => if k' == k then l else supp_get rest k

/-- The accumulation loop of `infer_probable_causes`: for each observation
in input order, for each outgoing edge in table order, damped-sum the
evidence per target (capped at 1) and append the trace string to the
target's support list. -/
def infer_accumulate (kg : List Edge) (observations : List String) :
    (List (String × ℚ)) × (List (String × List String)) :=
  observations.foldl (fun st obs =>
    (kg_query kg obs).foldl (fun st2 e =>
      (accumulate_step st2.1 e,
       supp_add st2.2 e.target (obs ++ "->" ++ e.relation ++ "->" ++ e.target))) st)
    ([], [])

/-- The score half of the accumulation loop on its own. -/
def accumulate (kg : List Edge) (observations : List String) : List (String × ℚ) :=
  observations.foldl (fun m obs => (kg_query kg obs).foldl accumulate_step m) []

/-- Prior fusion: `combined[c] = min(round(combined[c] * (1 + priors.get(c,
0.0)), 3), 1.0)` over the keys in order. -/
def fuse_priors (priors : List (String × ℚ)) (m : List (String × ℚ)) :
    List (String × ℚ) :=
  m.map (fun kv => (kv.1, min (py_round3 (kv.2 * (1 + dict_getD priors kv.1 0))) 1))

/-- Python `max(m.values())` when `m` is non-empty, `0.0` otherwise. -/
def dict_vmax : List (String × ℚ) → ℚ
  | [] => 0
  | kv :: rest => rest.foldl (fun a x => max a x.2) kv.2

/-- Normalization: when the maximum is positive, divide every score by it
(rounded to 3 decimals); otherwise leave the map untouched. -/
def normalize_scores (m : List (String × ℚ)) : List (String × ℚ) :=
  if 0 < dict_vmax m then
    m.map (fun kv => (kv.1, py_round3 (kv.2 / dict_vmax m)))
  else m

/-- Comparison used for `sorted(..., key=lambda kv: kv[1], reverse=True)`:
a stable mergesort under this relation is exactly CPython's stable
descending sort. -/
def causes_ge (a b : String × ℚ) : Bool := decide (b.2 ≤ a.2)

/-- Build one output record `{"cause", "score", "support", "source"}`. -/
def cause_entry (supp : List (String × List String)) (kv : String × ℚ) : Cause :=
  ⟨kv.1, kv.2, supp_get supp kv.1, "kg"⟩

/-- `infer_probable_causes` from the source (the unused call
`kg.infer_causes(observations)` whose result `kg_scores` is dead code is
omitted).  `raw_scores` aliases the normalized map, as in the source, where
the dict is normalized in place before being returned. -/
def infer_probable_causes (kg : List Edge) (observations : List String)
    (priors : List (String × ℚ)) : ProbableOut :=
  let acc := infer_accumulate kg observations
  let fused := fuse_priors priors acc.1
  let normd := normalize_scores fused
  let sortedCauses := normd.mergeSort causes_ge
  ⟨sortedCauses.map (cause_entry acc.2), normd⟩

theorem dict_getD_set_self (m : List (String × ℚ)) (k : String) (v d : ℚ) :
    dict_getD (dict_set m k v) k d = v := by
  induction m with
  | nil => simp [dict_set, dict_getD]
  | cons kv rest ih =>
    by_cases h : kv.1 = k
    · simp [dict_set, dict_getD, h]
    · simp only [dict_set, dict_getD]
      rw [if_neg (by simpa using h), dict_getD]
      rw [if_neg (by simpa using h)]
      exact ih

theorem dict_getD_set_ne (m : List (String × ℚ)) (k k' : String) (v d : ℚ)
    (h : k ≠ k') : dict_getD (dict_set m k v) k' d = dict_getD m k' d := by
  induction m with
  | nil =>
    simp only [dict_set, dict_getD]
    rw [if_neg (by simpa using h)]
  | cons kv rest ih =>
    by_cases hk : kv.1 = k
    · simp only [dict_set, dict_getD]
      rw [if_pos (by simpa using hk)]
      simp only [dict_getD]
      have hne : ¬ ((kv.1 == k') = true) := by
        simp only [beq_iff_eq, hk]
        exact h
      rw [if_neg hne, if_neg hne]
    · simp only [dict_set, dict_getD]
      rw [if_neg (by simpa using hk), dict_getD]
      by_cases hk' : kv.1 = k'
      · rw [if_pos (by simpa using hk'), if_pos (by simpa using hk')]
      · rw [if_neg (by simpa using hk'), if_neg (by simpa using hk')]
        exact ih

/-- The damped capped sum over a list of edge weights. -/
def cap_fold (init : ℚ) (ws : List ℚ) : ℚ :=
  ws.foldl (fun a w => min 1 (a + w * (8/10))) init

/-- Folding `accumulate_step` over an edge list changes the score of cause
`c` exactly by `cap_fold` over the weights of the edges targeting `c`. -/
theorem fold_edges_getD (edges : List Edge) (m : List (String × ℚ)) (c : String) :
    dict_getD (edges.foldl accumulate_step m) c 0 =
      cap_fold (dict_getD m c 0)
        ((edges.filter (fun e => e.target == c)).map Edge.weight) := by
  induction edges generalizing m with
  | nil => rfl
  | cons e es ih =>
    by_cases h : e.target = c
    · have hfil : (e :: es).filter (fun e => e.target == c) =
          e :: es.filter (fun e => e.target == c) := by
        simp [List.filter, h]
      rw [hfil, List.foldl_cons]
      rw [ih (accumulate_step m e)]
      have hstep : dict_getD (accumulate_step m e) c 0 =
          min 1 (dict_getD m c 0 + e.weight * (8/10)) := by
        unfold accumulate_step
        rw [h, dict_getD_set_self]
      rw [hstep]
      rfl
    · have hb : (e.target == c) = false := by simpa using h
      have hfil : (e :: es).filter (fun e => e.target == c) =
          es.filter (fun e => e.target == c) := by
        simp [List.filter, hb]
      rw [hfil, List.foldl_cons]
      rw [ih (accumulate_step m e)]
      have hstep : dict_getD (accumulate_step m e) c 0 = dict_getD m c 0 := by
        unfold accumulate_step
        exact dict_getD_set_ne _ _ _ _ _ h
      rw [hstep]

theorem accumulate_one (kg : List Edge) (o : String) (c : String) :
    dict_getD (accumulate kg [o]) c 0 =
      cap_fold 0 (((kg_query kg o).filter (fun e => e.target == c)).map Edge.weight) := by
  unfold accumulate
  rw [List.foldl_cons, List.foldl_nil]
  exact fold_edges_getD _ _ _

theorem accumulate_two (kg : List Edge) (o1 o2 : String) (c : String) :
    dict_getD (accumulate kg [o1, o2]) c 0 =
      cap_fold (dict_getD (accumulate kg [o1]) c 0)
        (((kg_query kg o2).filter (fun e => e.target == c)).map Edge.weight) := by
  unfold accumulate
  rw [List.foldl_cons, List.foldl_cons, List.foldl_nil]
  rw [fold_edges_getD]
  rfl

/-- C2 amended: when each of the two observations contributes exactly one
edge (weight in `(0,1]`) to the cause, the raw pre-normalization combined
score from both observations strictly exceeds the score from either
observation alone.  (With several parallel edges from one observation, that
observation alone can already reach the `1.0` cap and the combined score
then equals rather than exceeds it: see the counterexample.) -/
theorem C2_additive_accumulation (kg : List Edge) (o1 o2 c : String)
    (e1 e2 : Edge)
    (h1 : (kg_query kg o1).filter (fun e => e.target == c) = [e1])
    (h2 : (kg_query kg o2).filter (fun e => e.target == c) = [e2])
    (hw1 : 0 < e1.weight) (hw1b : e1.weight ≤ 1)
    (hw2 : 0 < e2.weight) (hw2b : e2.weight ≤ 1) :
    dict_getD (accumulate kg [o1, o2]) c 0 >
      dict_getD (accumulate kg [o1]) c 0 ∧
    dict_getD (accumulate kg [o1, o2]) c 0 >
      dict_getD (accumulate kg [o2]) c 0 := by
  have ha1 : dict_getD (accumulate kg [o1]) c 0 = e1.weight * (8/10) := by
    rw [accumulate_one, h1]
    show min 1 (0 + e1.weight * (8/10)) = e1.weight * (8/10)
    rw [zero_add]
    exact min_eq_right (by linarith)
  have ha2 : dict_getD (accumulate kg [o2]) c 0 = e2.weight * (8/10) := by
    rw [accumulate_one, h2]
    show min 1 (0 + e2.weight * (8/10)) = e2.weight * (8/10)
    rw [zero_add]
    exact min_eq_right (by linarith)
  have hb : dict_getD (accumulate kg [o1, o2]) c 0 =
      min 1 (e1.weight * (8/10) + e2.weight * (8/10)) := by
    rw [accumulate_two, h2, ha1]
    rfl
  rw [ha1, ha2, hb]
  rcases le_or_lt (e1.weight * (8/10) + e2.weight * (8/10)) 1 with hle | hgt
  · rw [min_eq_right hle]
    constructor <;> nlinarith
  · rw [min_eq_left (le_of_lt hgt)]
    constructor <;> nlinarith

/-- Knowledge graph used for the C2 witness. -/
def c2_kg : List Edge :=
  [⟨"A", "causes", "C", 9/10⟩, ⟨"B", "causes", "C", 6/10⟩]

/-- Witness for `C2_additive_accumulation` on a two-edge graph. -/
theorem C2_additive_accumulation_witness :
    ((kg_query c2_kg "A").filter (fun e => e.target == "C") =
      [⟨"A", "causes", "C", 9/10⟩]) ∧
    ((kg_query c2_kg "B").filter (fun e => e.target == "C") =
      [⟨"B", "causes", "C", 6/10⟩]) ∧
    (0:ℚ) < 9/10 ∧ (9:ℚ)/10 ≤ 1 ∧ (0:ℚ) < 6/10 ∧ (6:ℚ)/10 ≤ 1 ∧
    (dict_getD (accumulate c2_kg ["A", "B"]) "C" 0 >
      dict_getD (accumulate c2_kg ["A"]) "C" 0 ∧
     dict_getD (accumulate c2_kg ["A", "B"]) "C" 0 >
      dict_getD (accumulate c2_kg ["B"]) "C" 0) :=
  ⟨rfl, rfl, by norm_num, by norm_num, by norm_num, by norm_num,
    C2_additive_accumulation c2_kg "A" "B" "C" _ _ rfl rfl
      (by norm_num) (by norm_num) (by norm_num) (by norm_num)⟩

/-- Knowledge graph with two parallel edges from `A` to `C`, on which the
C2 claim as stated fails. -/
def c2x_kg : List Edge :=
  [⟨"A", "r1", "C", 1⟩, ⟨"A", "r2", "C", 1⟩, ⟨"B", "r3", "C", 1⟩]

/-- C2 counterexample: observations `A` and `B` each have an edge (weight
in `(0,1]`) to cause `C`, yet the combined raw score from both equals the
raw score from `A` alone (both are capped at `1.0`), so the strict
inequality claimed does not hold. -/
theorem C2_counterexample :
    (∃ e ∈ kg_query c2x_kg "A", e.target = "C" ∧ 0 < e.weight ∧ e.weight ≤ 1) ∧
    (∃ e ∈ kg_query c2x_kg "B", e.target = "C" ∧ 0 < e.weight ∧ e.weight ≤ 1) ∧
    dict_getD (accumulate c2x_kg ["A"]) "C" 0 = 1 ∧
    dict_getD (accumulate c2x_kg ["A", "B"]) "C" 0 = 1 ∧
    ¬ (dict_getD (accumulate c2x_kg ["A", "B"]) "C" 0 >
        dict_getD (accumulate c2x_kg ["A"]) "C" 0) := by
  have hA : dict_getD (accumulate c2x_kg ["A"]) "C" 0 = 1 := by
    rw [accumulate_one]
    show cap_fold 0 [1, 1] = 1
    show min 1 (min 1 (0 + 1 * (8/10)) + 1 * (8/10)) = 1
    norm_num
  have hAB : dict_getD (accumulate c2x_kg ["A", "B"]) "C" 0 = 1 := by
    rw [accumulate_two, hA]
    show min 1 (1 + 1 * (8/10)) = 1
    norm_num
  refine ⟨⟨⟨"A", "r1", "C", 1⟩, by norm_num [kg_query, c2x_kg]⟩,
    ⟨⟨"B", "r3", "C", 1⟩, by norm_num [kg_query, c2x_kg]⟩, hA, hAB, ?_⟩
  rw [hA, hAB]
  norm_num

theorem causes_ge_trans : ∀ (a b c : String × ℚ),
    causes_ge a b → causes_ge b c → causes_ge a c := by
  intro a b c hab hbc
  simp only [causes_ge, decide_eq_true_eq] at *
  exact le_trans hbc hab

theorem causes_ge_total : ∀ (a b : String × ℚ), causes_ge a b || causes_ge b a := by
  intro a b
  simp only [causes_ge, Bool.or_eq_true, decide_eq_true_eq]
  exact le_total b.2 a.2

theorem foldl_max_ge_init (l : List (String × ℚ)) (init : ℚ) :
    init ≤ l.foldl (fun a x => max a x.2) init := by
  induction l generalizing init with
  | nil => exact le_refl _
  | cons x xs ih => exact le_trans (le_max_left _ _) (ih _)

theorem foldl_max_ge_mem :
    ∀ (l : List (String × ℚ)) (init : ℚ) (kv : String × ℚ), kv ∈ l →
      kv.2 ≤ l.foldl (fun a x => max a x.2) init
  | [], _, _, h => by cases h
  | x :: xs, init, kv, h => by
    rw [List.foldl_cons]
    rcases List.mem_cons.mp h with rfl | h'
    · exact le_trans (le_max_right _ _) (foldl_max_ge_init _ _)
    · exact foldl_max_ge_mem xs _ kv h' 

theorem foldl_max_attained (l : List (String × ℚ)) (init : ℚ) :
    l.foldl (fun a x => max a x.2) init = init ∨
      ∃ kv ∈ l, l.foldl (fun a x => max a x.2) init = kv.2 := by
  induction l generalizing init with
  | nil => exact Or.inl rfl
  | cons x xs ih =>
    rcases ih (max init x.2) with h | ⟨kv, hm, he⟩
    · rcases le_total init x.2 with hle | hle
      · right
        refine ⟨x, List.mem_cons_self _ _, ?_⟩
        rw [List.foldl_cons, h, max_eq_right hle]
      · left
        rw [List.foldl_cons, h, max_eq_left hle]
    · right
      exact ⟨kv, List.mem_cons_of_mem _ hm, by rw [List.foldl_cons]; exact he⟩

theorem dict_vmax_ge (m : List (String × ℚ)) (kv : String × ℚ) (h : kv ∈ m) :
    kv.2 ≤ dict_vmax m := by
  cases m with
  | nil => cases h
  | cons x xs =>
    rcases List.mem_cons.mp h with rfl | h'
    · exact foldl_max_ge_init xs kv.2
    · exact foldl_max_ge_mem xs x.2 kv h'

theorem dict_vmax_mem (m : List (String × ℚ)) (hne : m ≠ []) :
    ∃ kv ∈ m, dict_vmax m = kv.2 := by
  cases m with
  | nil => exact absurd rfl hne
  | cons x xs =>
    unfold dict_vmax
    rcases foldl_max_attained xs x.2 with h | ⟨kv, hm, he⟩
    · exact ⟨x, List.mem_cons_self _ _, h⟩
    · exact ⟨kv, List.mem_cons_of_mem _ hm, he⟩

theorem infer_accumulate_no_edges (kg : List Edge) :
    ∀ (obs : List String), (∀ o ∈ obs, kg_query kg o = []) →
      infer_accumulate kg obs = ([], [])
  | [], _ => rfl
  | o :: os, h => by
    have h0 : kg_query kg o = [] := h o (List.mem_cons_self _ _)
    show List.foldl _ ([], []) (o :: os) = ([], [])
    rw [List.foldl_cons]
    have hstep : (kg_query kg o).foldl (fun st2 e =>
        (accumulate_step st2.1 e,
         supp_add st2.2 e.target (o ++ "->" ++ e.relation ++ "->" ++ e.target)))
        (([], []) : (List (String × ℚ)) × (List (String × List String))) = ([], []) := by
      rw [h0]
      rfl
    rw [hstep]
    exact infer_accumulate_no_edges kg os (fun o' ho' => h o' (List.mem_cons_of_mem _ ho'))

/-- The score list of the ranked causes is the second projection of the
sorted normalized map. -/
theorem causes_scores_eq (kg : List Edge) (observations : List String)
    (priors : List (String × ℚ)) :
    (infer_probable_causes kg observations priors).causes.map Cause.score =
      ((normalize_scores (fuse_priors priors
        (infer_accumulate kg observations).1)).mergeSort causes_ge).map Prod.snd := by
  simp only [infer_probable_causes, List.map_map]
  rfl

/-- C3 amended: provided the maximum fused score is still positive after
3-decimal rounding, the returned score list attains maximum exactly `1`;
the list is always sorted descending with ties kept in first-encountered
accumulation order (stable sort); and when no observation has an outgoing
edge the causes list is empty.  (With all positive edge weights small
enough that every fused score rounds to `0`, the map is non-empty but no
normalization happens and the maximum is `0`: see the counterexample.) -/
theorem C3_normalization (kg : List Edge) (observations : List String)
    (priors : List (String × ℚ)) :
    (0 < dict_vmax (fuse_priors priors (infer_accumulate kg observations).1) →
      1 ∈ (infer_probable_causes kg observations priors).causes.map Cause.score ∧
      ∀ s ∈ (infer_probable_causes kg observations priors).causes.map Cause.score,
        s ≤ 1) ∧
    ((infer_probable_causes kg observations priors).causes.map Cause.score).Pairwise
      (fun a b => b ≤ a) ∧
    (∀ a b : String × ℚ, a.2 = b.2 →
      [a, b].Sublist (normalize_scores (fuse_priors priors
        (infer_accumulate kg observations).1)) →
      [cause_entry (infer_accumulate kg observations).2 a,
       cause_entry (infer_accumulate kg observations).2 b].Sublist
        (infer_probable_causes kg observations priors).causes) ∧
    ((∀ o ∈ observations, kg_query kg o = []) →
      (infer_probable_causes kg observations priors).causes = []) := by
  refine ⟨?_, ?_, ?_, ?_⟩
  · intro hmx
    have hnormd : normalize_scores (fuse_priors priors (infer_accumulate kg observations).1) =
        (fuse_priors priors (infer_accumulate kg observations).1).map
          (fun kv => (kv.1, py_round3 (kv.2 /
            dict_vmax (fuse_priors priors (infer_accumulate kg observations).1)))) := by
      unfold normalize_scores
      rw [if_pos hmx]
    have hne : fuse_priors priors (infer_accumulate kg observations).1 ≠ [] := by
      intro h0
      rw [h0] at hmx
      exact absurd hmx (lt_irrefl 0)
    obtain ⟨kv, hkvmem, hkveq⟩ := dict_vmax_mem _ hne
    constructor
    · rw [causes_scores_eq]
      apply List.mem_map.mpr
      refine ⟨(kv.1, py_round3 (kv.2 /
        dict_vmax (fuse_priors priors (infer_accumulate kg observations).1))), ?_, ?_⟩
      · apply List.mem_mergeSort.mpr
        rw [hnormd]
        exact List.mem_map_of_mem _ hkvmem
      · show py_round3 _ = 1
        rw [← hkveq, div_self (ne_of_gt hmx)]
        exact py_round3_one
    · intro s hs
      rw [causes_scores_eq] at hs
      obtain ⟨x, hx, hxs⟩ := List.mem_map.mp hs
      have hx' := List.mem_mergeSort.mp hx
      rw [hnormd] at hx'
      obtain ⟨kv', hkv', hkveq'⟩ := List.mem_map.mp hx'
      have hle : kv'.2 ≤ dict_vmax (fuse_priors priors (infer_accumulate kg observations).1) :=
        dict_vmax_ge _ _ hkv'
      rw [← hxs, ← hkveq']
      exact py_round3_le_one ((div_le_one hmx).mpr hle)
  · rw [causes_scores_eq]
    have hsorted := List.sorted_mergeSort
      causes_ge_trans causes_ge_total
      (normalize_scores (fuse_priors priors (infer_accumulate kg observations).1))
    exact hsorted.map _ (fun a b h => by
      simpa [causes_ge] using h)
  · intro a b heq hsub
    have hab : causes_ge a b = true := by
      simp [causes_ge, heq]
    have hms := List.pair_sublist_mergeSort causes_ge_trans causes_ge_total hab hsub
    simp only [infer_probable_causes]
    exact hms.map (cause_entry _)
  · intro hO
    have hacc := infer_accumulate_no_edges kg observations hO
    simp only [infer_probable_causes, hacc]
    rw [show fuse_priors priors ([] : List (String × ℚ)) = [] from rfl]
    have hnz : ¬ (0 < dict_vmax ([] : List (String × ℚ))) := by
      rw [show dict_vmax ([] : List (String × ℚ)) = 0 from rfl]
      exact lt_irrefl 0
    rw [show normalize_scores [] = [] from by
      unfold normalize_scores
      rw [if_neg hnz]]
    simp [List.mergeSort_nil]

/-- Knowledge graph used for the C3 witness. -/
def c3_kg : List Edge := [⟨"A", "causes", "C", 9/10⟩]

/-- Witness for `C3_normalization`: one observation with one edge of weight
`0.9` yields a positive rounded fused maximum, so the top normalized score
is exactly `1`. -/
theorem C3_normalization_witness :
    0 < dict_vmax (fuse_priors [] (infer_accumulate c3_kg ["A"]).1) ∧
    (1 ∈ (infer_probable_causes c3_kg ["A"] []).causes.map Cause.score ∧
      ∀ s ∈ (infer_probable_causes c3_kg ["A"] []).causes.map Cause.score,
        s ≤ 1) := by
  have hfst : (infer_accumulate c3_kg ["A"]).1 =
      [("C", min 1 (0 + (9/10) * (8/10)))] := rfl
  have hmx : 0 < dict_vmax (fuse_priors [] (infer_accumulate c3_kg ["A"]).1) := by
    rw [hfst]
    show (0:ℚ) < dict_vmax [("C", min (py_round3 (min 1 (0 + (9/10) * (8/10)) *
      (1 + dict_getD [] "C" 0))) 1)]
    show (0:ℚ) < min (py_round3 (min 1 (0 + (9/10) * (8/10)) *
      (1 + dict_getD [] "C" 0))) 1
    rw [show dict_getD [] "C" 0 = 0 from rfl]
    norm_num [py_round3, round_half_even]
  exact ⟨hmx, (C3_normalization c3_kg ["A"] []).1 hmx⟩

/-- Knowledge graph with a tiny (but in-range) weight, on which the C3
claim as stated fails. -/
def c3x_kg : List Edge := [⟨"A", "r", "C", 1/10000⟩]

/-- C3 counterexample: with a single edge of weight `0.0001 ∈ (0,1]`, the
fused score `0.00008` rounds to `0.0`, the maximum is not positive, no
normalization happens, and the non-empty causes list has maximum score `0`
rather than exactly `1`. -/
theorem C3_counterexample :
    kg_query c3x_kg "A" ≠ [] ∧
    (∀ e ∈ c3x_kg, 0 < e.weight ∧ e.weight ≤ 1) ∧
    (infer_probable_causes c3x_kg ["A"] []).causes.map Cause.score = [0] ∧
    ¬ (1 ∈ (infer_probable_causes c3x_kg ["A"] []).causes.map Cause.score) := by
  have hfst : (infer_accumulate c3x_kg ["A"]).1 =
      [("C", min 1 (0 + (1/10000) * (8/10)))] := rfl
  have hval : min 1 ((0:ℚ) + (1/10000) * (8/10)) = 1/12500 := by norm_num
  have hfused : fuse_priors [] (infer_accumulate c3x_kg ["A"]).1 = [("C", 0)] := by
    rw [hfst]
    show [("C", min (py_round3 (min 1 (0 + (1/10000) * (8/10)) *
      (1 + dict_getD [] "C" 0))) 1)] = [("C", (0:ℚ))]
    rw [hval, show dict_getD [] "C" 0 = 0 from rfl]
    norm_num [py_round3, round_half_even]
  have hnormd : normalize_scores (fuse_priors [] (infer_accumulate c3x_kg ["A"]).1) =
      [("C", 0)] := by
    rw [hfused]
    unfold normalize_scores
    have hnz : ¬ ((0:ℚ) < dict_vmax [("C", (0:ℚ))]) := by
      rw [show dict_vmax [("C", (0:ℚ))] = 0 from rfl]
      exact lt_irrefl 0
    rw [if_neg hnz]
  have hscores : (infer_probable_causes c3x_kg ["A"] []).causes.map Cause.score = [0] := by
    rw [causes_scores_eq, hnormd]
    rw [List.mergeSort_singleton]
    rfl
  refine ⟨?_, ?_, hscores, ?_⟩
  · intro h
    exact absurd (congrArg List.length h) (by norm_num [kg_query, c3x_kg])
  · intro e he
    rcases List.mem_cons.mp he with rfl | h'
    · constructor <;> norm_num
    · cases h'
  · rw [hscores]
    intro h
    rcases List.mem_singleton.mp h with h1
    exact absurd h1 (by norm_num)

/-! ### Loader numeric casting (`model2/pipeline/loader.py`, `_cast_number`
and the parameter-storing step of `load_input`)

Header canonicalization is orthogonal to the claim under study and the
canonical key is taken as given; the cast and the store step (source lines
149-155) are embedded below.  Python `float()` is modelled on the character
set reachable after the unit-stripping step (sign, digits, one dot —
letters, including the exponent `e`, have been removed by the strip). -/

/-- Python `s.strip()`. -/
def py_strip (s : String) : String :=
  String.mk (((s.toList.dropWhile Char.isWhitespace).reverse.dropWhile
    Char.isWhitespace).reverse)

/-- Python `re.sub(r"[A-Za-z/°%]+", "", s)`. -/
def strip_units (s : String) : String :=
  String.mk (s.toList.filter (fun c => !(c.isAlpha || c == '/' || c == '°' || c == '%')))

/-- Python `s.replace(",", "")`. -/
def remove_commas (s : String) : String :=
  String.mk (s.toList.filter (fun c => !(c == ',')))

/-- Numeric value of a digit string (most significant first). -/
def digits_val (cs : List Char) : ℕ :=
  cs.foldl (fun n c => 10 * n + (c.toNat - 48)) 0

/-- Optional leading sign: returns (negative?, remaining characters). -/
def split_sign : List Char → Bool × List Char
  | '-' :: rest => (true, rest)
  | '+' :: rest => (false, rest)
  | cs => (false, cs)

/-- Python `int(s)` on a stripped string: optional sign then digits. -/
def py_int_parse (s : String) : Option ℤ :=
  let p := split_sign s.toList
  if p.2 ≠ [] ∧ p.2.all Char.isDigit then
    some (if p.1 then -(digits_val p.2 : ℤ) else (digits_val p.2 : ℤ))
  else none

/-- Python `float(s)` on a stripped string: optional sign, digits with at
most one dot and at least one digit. -/
def py_float_parse (s : String) : Option ℚ :=
  let p := split_sign s.toList
  let ip := p.2.takeWhile (fun c => !(c == '.'))
  match p.2.dropWhile (fun c => !(c == '.')) with
  | [] =>
    if p.2 ≠ [] ∧ p.2.all Char.isDigit then
      some (if p.1 then -(digits_val p.2 : ℚ) else (digits_val p.2 : ℚ))
    else none
  | _ :: fp =>
    if ip.all Char.isDigit ∧ fp.all Char.isDigit ∧ (ip ≠ [] ∨ fp ≠ []) then
      let q : ℚ := (digits_val ip : ℚ) + (digits_val fp : ℚ) / ((10:ℚ) ^ fp.length)
      some (if p.1 then -q else q)
    else none

/-- Result of `_cast_number`: a number, `None`, or the leftover stripped
string (returned unchanged by the source when parsing fails). -/
inductive CastResult where
  | cnull
  | cnum (q : ℚ)
  | cstr (s : String)
deriving Repr, DecidableEq

/-- `_cast_number` from the source. -/
def cast_number (v : Option String) : CastResult :=
  match v with
  | none => .cnull
  | some raw =>
    let s0 := py_strip raw
    if s0 = "" then .cnull
    else
      let s2 := remove_commas (py_strip (strip_units s0))
      if s2 = "" then .cnull
      else
        match (if s2.toList.contains '.' then py_float_parse s2
               else match py_int_parse s2 with
                    | some n => some ((n : ℚ))
                    | none => py_float_parse s2) with
        | some q => .cnum q
        | none => .cstr s2

/-- Python `m[k] = v` on a `str -> float|None` dict. -/
def opt_dict_set (m : List (String × Option ℚ)) (k : String) (v : Option ℚ) :
    List (String × Option ℚ) :=
  match m with
  | [] => [(k, v)]
  | (k', v') :: rest =>
    if k' == k then (k', v) :: rest else (k', v') :: opt_dict_set rest k v

/-- Python `m.get(k)` on a `str -> float|None` dict (`none` = key absent). -/
def opt_dict_get (m : List (String × Option ℚ)) (k : String) : Option (Option ℚ) :=
  match m with
  | [] => none
  | (k', v) :: rest => if k' == k then some v else opt_dict_get rest k

/-- The parameter-storing step of `load_input` (source lines 149-155): a
numeric cast stores the number, a failed-to-`None` cast stores `null`, and
a leftover string is ignored — the key is not stored at all. -/
def store_param (params : List (String × Option ℚ)) (canonical : String)
    (raw : Option String) : List (String × Option ℚ) :=
  match cast_number raw with
  | .cnum q => opt_dict_set params canonical (some q)
  | .cnull => opt_dict_set params canonical none
  | .cstr _ => params

theorem opt_dict_get_set_self (m : List (String × Option ℚ)) (k : String)
    (v : Option ℚ) : opt_dict_get (opt_dict_set m k v) k = some v := by
  induction m with
  | nil => simp [opt_dict_set, opt_dict_get]
  | cons kv rest ih =>
    by_cases h : kv.1 = k
    · simp [opt_dict_set, opt_dict_get, h]
    · simp only [opt_dict_set, opt_dict_get]
      rw [if_neg (by simpa using h), opt_dict_get]
      rw [if_neg (by simpa using h)]
      exact ih

/-- C8 amended: a value that is blank, or empty after unit/comma stripping,
is stored as `null`; a value that parses stores the number; but a non-empty
stripped value that still fails numeric parsing is omitted from the
parameters map entirely (the canonical key is not stored), rather than
stored as `null`.  No exception is raised in any case (the embedding is a
total function). -/
theorem C8_cast_and_store (params : List (String × Option ℚ))
    (canonical : String) (raw : Option String) :
    (cast_number raw = .cnull →
      opt_dict_get (store_param params canonical raw) canonical = some none) ∧
    (∀ q, cast_number raw = .cnum q →
      opt_dict_get (store_param params canonical raw) canonical = some (some q)) ∧
    (∀ s, cast_number raw = .cstr s → store_param params canonical raw = params) := by
  refine ⟨?_, ?_, ?_⟩
  · intro h
    unfold store_param
    rw [h]
    exact opt_dict_get_set_self _ _ _
  · intro q h
    unfold store_param
    rw [h]
    exact opt_dict_get_set_self _ _ _
  · intro s h
    unfold store_param
    rw [h]

/-- Witness for `C8_cast_and_store`: the value `"abc"` strips to the empty
string, casts to `None`, and is stored as `null`. -/
theorem C8_cast_and_store_witness :
    cast_number (some "abc") = .cnull ∧
    opt_dict_get (store_param [] "Hemoglobin" (some "abc")) "Hemoglobin" =
      some none :=
  ⟨by decide, (C8_cast_and_store [] "Hemoglobin" (some "abc")).1 (by decide)⟩

/-- C8 counterexample: the value `"1.2.3"` survives stripping but fails
numeric parsing, and `load_input` then ignores the column entirely — the
canonical key is absent from the parameters map, not stored as `null`. -/
theorem C8_counterexample :
    cast_number (some "1.2.3") = .cstr "1.2.3" ∧
    store_param [] "Hemoglobin" (some "1.2.3") = [] ∧
    opt_dict_get (store_param [] "Hemoglobin" (some "1.2.3")) "Hemoglobin" = none := by
  refine ⟨by decide, ?_, ?_⟩
  · show store_param [] "Hemoglobin" (some "1.2.3") = []
    unfold store_param
    rw [show cast_number (some "1.2.3") = .cstr "1.2.3" from by decide]
  · show opt_dict_get (store_param [] "Hemoglobin" (some "1.2.3")) "Hemoglobin" = none
    unfold store_param
    rw [show cast_number (some "1.2.3") = .cstr "1.2.3" from by decide]
    rfl

/-! ### Orchestrator observation extraction (`model2/model2_runner.py`,
`run`, source lines 77-99) -/

def KEY_PARAMS : List String :=
  ["Hemoglobin", "Platelets", "MCV", "RDW", "LDL", "Total_Cholesterol",
   "Triglycerides", "HDL", "Creatinine", "CRP", "Glucose_Fasting", "HbA1c",
   "Neutrophils", "Lymphocytes"]

/-- Python `m.get(k)` on a `str -> str` dict. -/
def str_dict_get (m : List (String × String)) (k : String) : Option String :=
  match m with
  | [] => none
  | (k', v) :: rest => if k' == k then some v else str_dict_get rest k

/-- Python `flat_params.get(param)` collapsing an absent key and a stored
`None` to the same `none` (the source only asks `isinstance(val, (int,
float))`, which treats both alike). -/
def pget (params : List (String × Option ℚ)) (k : String) : Option ℚ :=
  match opt_dict_get params k with
  | some v => v
  | none => none

/-- The status-flag branch of the extraction: `"LOW" in st.upper()` wins
over `"HIGH"`. -/
def status_obs_token (param st : String) : List String :=
  let stUp := py_upper st
  if str_has_term stUp "LOW" then [param ++ "_LOW"]
  else if str_has_term stUp "HIGH" then [param ++ "_HIGH"]
  else []

/-- The severity-fallback branch of the extraction, verbatim from the
source: the token direction is `_LOW` only when the label *starts with*
`low`; labels `severe_low`/`very_severe_low` pass the `"severe" in lbl`
test but fail `startswith("low")` and are therefore sent to `_HIGH`. -/
def severity_obs_token (param lbl : String) : List String :=
  if str_starts lbl "low" || str_starts lbl "high" || str_has_term lbl "severe" then
    [param ++ (if str_starts lbl "low" then "_LOW" else "_HIGH")]
  else []

/-- Observation extraction: pattern supports for present patterns, then the
fixed key-parameter loop preferring explicit status flags and falling back
to severity labels. -/
def extract_observations (patterns : PatternsOut)
    (status_map : List (String × String))
    (flat_params : List (String × Option ℚ))
    (ranges : String → Option (ℚ × ℚ × String)) : List String :=
  let fromPatterns := (patterns.patterns.filter (fun kv => kv.2.present)).foldl
    (fun acc kv => acc ++ kv.2.support) []
  KEY_PARAMS.foldl (fun acc param =>
    let st := (str_dict_get status_map param).getD ""
    if st ≠ "" then acc ++ status_obs_token param st
    else
      match pget flat_params param with
      | some v =>
        acc ++ severity_obs_token param (label_from_range (ranges param) (some v)).label
      | none => acc) fromPatterns

/-- Modelled from the spec: the reference range for Hemoglobin, 12-15.5
g/dL (the example range in the severity module's docstring);
`priors.get_reference_range` is not among the analyzed sources. -/
def hb_ranges : String → Option (ℚ × ℚ × String) :=
  fun p => if p = "Hemoglobin" then some (12, 31/2, "g/dL") else none

/-- C6: the severity-fallback extraction maps the low-side labels
`severe_low` and `very_severe_low` to the token `<Param>_HIGH`, because
`"severe_low".startswith("low")` is false while `"severe" in lbl` is true;
a severely low Hemoglobin of 6 g/dL therefore produces the observation
`Hemoglobin_HIGH`, pointing opposite to the abnormality. -/
theorem C6_severity_token_bug :
    (∀ param : String,
      severity_obs_token param "severe_low" = [param ++ "_HIGH"] ∧
      severity_obs_token param "very_severe_low" = [param ++ "_HIGH"] ∧
      severity_obs_token param "low" = [param ++ "_LOW"]) ∧
    (label_from_range (hb_ranges "Hemoglobin") (some 6)).label = "severe_low" ∧
    extract_observations ⟨[]⟩ [] [("Hemoglobin", some 6)] hb_ranges =
      ["Hemoglobin_HIGH"] := by
  have hlab : (label_from_range (hb_ranges "Hemoglobin") (some 6)).label =
      "severe_low" := by
    norm_num [label_from_range, hb_ranges]
  have htok : ∀ param : String,
      severity_obs_token param "severe_low" = [param ++ "_HIGH"] ∧
      severity_obs_token param "very_severe_low" = [param ++ "_HIGH"] ∧
      severity_obs_token param "low" = [param ++ "_LOW"] :=
    fun _ => ⟨rfl, rfl, rfl⟩
  refine ⟨htok, hlab, ?_⟩
  simp [extract_observations, KEY_PARAMS, str_dict_get, pget, opt_dict_get,
    status_obs_token, hlab, (htok "Hemoglobin").1]

/-! ### Orchestrator document assembly (`model2/model2_runner.py`, `run`,
source lines 116-128)

The output dict literal writes the key `notes` twice: once with the
Loader's per-parameter notes map and once, later, with the fixed disclaimer
sentence.  A Python dict literal keeps the first position and the last
value for a duplicate key, so the assembled document has a single `notes`
entry holding the disclaimer and the notes map is silently discarded; no
`disclaimer_note` key exists. -/

def DISCLAIMER_TEXT : String :=
  "Model-2 deterministic + KG reasoning. This output is not a diagnosis. Refer to clinician."

/-- The output dict literal of `run`, built with Python-dict insertion
semantics (`jobj_set`), duplicate `notes` key included. -/
def assemble_output (metadata parameters status notes_map derived patterns
    probable cardio severity confidence : JVal) : JObj :=
  jobj_set (jobj_set (jobj_set (jobj_set (jobj_set (jobj_set (jobj_set
    (jobj_set (jobj_set (jobj_set (jobj_set .onil
      "metadata" metadata)
      "parameters" parameters)
      "status" status)
      "notes" notes_map)
      "derived" derived)
      "patterns" patterns)
      "probable_causes" probable)
      "cardio" cardio)
      "severity" severity)
      "confidence" confidence)
      "notes" (.jstr DISCLAIMER_TEXT)

/-- C7: for every choice of components — in particular for every
per-parameter notes map — the assembled document's `notes` key holds the
disclaimer sentence (the notes map having been overwritten by the
duplicate dict key), and no separate `disclaimer_note` key exists. -/
theorem C7_notes_overwritten (metadata parameters status notes_map derived
    patterns probable cardio severity confidence : JVal) :
    jobj_get (assemble_output metadata parameters status notes_map derived
      patterns probable cardio severity confidence) "notes" =
      some (.jstr DISCLAIMER_TEXT) ∧
    jobj_get (assemble_output metadata parameters status notes_map derived
      patterns probable cardio severity confidence) "disclaimer_note" = none := by
  constructor
  · rfl
  · rfl

/-! ### PatternEngine (`model2/pipeline/pattern_engine.py`, `detect_patterns`)
and the Orchestrator core (`model2/model2_runner.py`, `run`)

The reference-range table, knowledge-graph table, priors and the derived
/cardio hooks (`priors.py`, `knowledge_graph.py`, `risk_engine.py`) are not
among the analyzed sources; they are passed as read-only configuration, as
the spec prescribes (loaded once, never mutated). -/

/-- The process-wide read-only configuration. -/
structure Config where
  ranges : Option ℚ → Option String → String → Option (ℚ × ℚ × String)
  kg : List Edge
  priors : List (String × ℚ)
  derivedFn : List (String × Option ℚ) → JVal
  cardioFn : List (String × Option ℚ) → JVal → JVal

/-- Python truthiness-guarded comparison `x and float(x) >= bound` for an
optional number. -/
def truthy_ge (x : Option ℚ) (bound : ℚ) : Bool :=
  match x with
  | some v => decide (v ≠ 0) && decide (bound ≤ v)
  | none => false

/-- `detect_patterns` from the source: anemia (typed by MCV when present),
thrombocytopenia (with isolation check), neutrophilia, lymphocytosis,
dyslipidemia and metabolic-syndrome signals, in the source's insertion
order.  Optional dict fields are carried as `Option`s. -/
def detect_patterns (cfg : Config) (params : List (String × Option ℚ))
    (age : Option ℚ) (gender : Option String) : PatternsOut :=
  let lab := fun (p : String) => label_from_range (cfg.ranges age gender p) (pget params p)
  let lab0 := fun (p : String) => label_from_range (cfg.ranges none none p) (pget params p)
  let hb := lab "Hemoglobin"
  let mcv := lab "MCV"
  let rdw := lab "RDW"
  let plate := lab "Platelets"
  let neut := lab "Neutrophils"
  let lymph := lab "Lymphocytes"
  let anemia_present := str_starts hb.label "low" || str_starts hb.label "very_severe" ||
    (hb.label == "severe_low" || hb.label == "very_severe_low")
  let anemia_type : Option String :=
    if anemia_present then
      some (if str_starts mcv.label "low" then "microcytic"
            else if str_starts mcv.label "high" then "macrocytic" else "normocytic")
    else none
  let anemia_support : List String :=
    if anemia_present then
      ["Hemoglobin_LOW"] ++
        (if str_starts mcv.label "low" then ["MCV_LOW"]
         else if str_starts mcv.label "high" then ["MCV_HIGH"] else []) ++
        (if str_starts rdw.label "high" then ["RDW_HIGH"] else [])
    else []
  let thromb_present := str_starts plate.label "low" ||
    (plate.label == "severe_low" || plate.label == "very_severe_low")
  let wbc := lab "WBC"
  let is_isolated := thromb_present && !(str_starts wbc.label "low" || anemia_present)
  let neut_present := str_starts neut.label "high"
  let lymph_present := str_starts lymph.label "high"
  let tc := lab0 "Total_Cholesterol"
  let ldl := lab0 "LDL"
  let tg := lab0 "Triglycerides"
  let dyslipid := str_starts tc.label "high" || str_starts ldl.label "high" ||
    str_starts tg.label "high"
  let dys_support : List String :=
    if dyslipid then
      (if str_starts tc.label "high" then ["Total_Cholesterol_HIGH"] else []) ++
      (if str_starts ldl.label "high" then ["LDL_HIGH"] else []) ++
      (if str_starts tg.label "high" then ["Triglycerides_HIGH"] else [])
    else []
  let hdl := lab0 "HDL"
  let met_cond1 := str_starts tg.label "high" || str_starts hdl.label "low"
  let met_cond2 := truthy_ge (pget params "HbA1c") (57/10) ||
    truthy_ge (pget params "Glucose_Fasting") 100
  let met_support : List String :=
    (if met_cond1 then ["TG_HIGH_or_HDL_LOW"] else []) ++
    (if met_cond2 then ["Glucose_pre-diabetes_or_hyperglycemia"] else [])
  ⟨[("anemia",
      { present := anemia_present, ptype := anemia_type,
        severity := some hb.label, support := anemia_support,
        note := some hb.note }),
    ("thrombocytopenia",
      { present := thromb_present, isolated := some is_isolated,
        severity := some plate.label,
        support := if thromb_present then ["Platelets_LOW"] else [] }),
    ("neutrophilia",
      { present := neut_present, severity := some neut.label,
        support := if neut_present then ["Neutrophils_HIGH"] else [] }),
    ("lymphocytosis",
      { present := lymph_present, severity := some lymph.label,
        support := if lymph_present then ["Lymphocytes_HIGH"] else [] }),
    ("dyslipidemia",
      { present := dyslipid, support := dys_support,
        details := [("tc", tc), ("ldl", ldl), ("tg", tg)] }),
    ("metabolic_syndrome_signals",
      { present := met_cond1 || met_cond2, support := met_support })]⟩

/-- The per-numeric-parameter severity map of the Orchestrator. -/
def severity_map (cfg : Config) (params : List (String × Option ℚ))
    (age : Option ℚ) (gender : Option String) : List (String × SeverityResult) :=
  params.foldl (fun acc kv =>
    match kv.2 with
    | some v => acc ++ [(kv.1, label_from_range (cfg.ranges age gender kv.1) (some v))]
    | none => acc) []

/-! Serialization of the typed stage outputs into the JSON-shaped document
(the embedding normalizes optional dict fields to a fixed order; this does
not affect any claim under study). -/

def jlist_of : List JVal → JList
  | [] => .jnil
  | x :: xs => .jcons x (jlist_of xs)

def jobj_of : List (String × JVal) → JObj
  | [] => .onil
  | (k, v) :: rest => .ocons k v (jobj_of rest)

def jnum_opt : Option ℚ → JVal
  | some q => .jnum q
  | none => .jnull

def jstr_opt : Option String → JVal
  | some s => .jstr s
  | none => .jnull

def severity_to_jval (r : SeverityResult) : JVal :=
  .jobj (jobj_of [("value", jnum_opt r.value), ("label", .jstr r.label),
    ("note", .jstr r.note), ("distance", jnum_opt r.distance)])

def pattern_info_to_jval (i : PatternInfo) : JVal :=
  .jobj (jobj_of ([("present", .jbool i.present), ("type", jstr_opt i.ptype),
    ("isolated", match i.isolated with | some b => .jbool b | none => .jnull),
    ("severity", jstr_opt i.severity),
    ("support", .jarr (jlist_of (i.support.map JVal.jstr))),
    ("note", jstr_opt i.note),
    ("details", .jobj (jobj_of (i.details.map (fun kv => (kv.1, severity_to_jval kv.2)))))]))

def patterns_to_jval (po : PatternsOut) : JVal :=
  .jobj (jobj_of [("patterns",
    .jobj (jobj_of (po.patterns.map (fun kv => (kv.1, pattern_info_to_jval kv.2)))))])

def cause_to_jval (c : Cause) : JVal :=
  .jobj (jobj_of [("cause", .jstr c.cause), ("score", .jnum c.score),
    ("support", .jarr (jlist_of (c.support.map JVal.jstr))),
    ("source", .jstr c.source)])

def probable_to_jval (po : ProbableOut) : JVal :=
  .jobj (jobj_of [("causes", .jarr (jlist_of (po.causes.map cause_to_jval))),
    ("raw_scores", .jobj (jobj_of (po.raw_scores.map (fun kv => (kv.1, JVal.jnum kv.2)))))])

def params_to_jval (params : List (String × Option ℚ)) : JVal :=
  .jobj (jobj_of (params.map (fun kv => (kv.1, jnum_opt kv.2))))

def strmap_to_jval (m : List (String × String)) : JVal :=
  .jobj (jobj_of (m.map (fun kv => (kv.1, JVal.jstr kv.2))))

def confidence_to_jval (c : ConfidenceOut) : JVal :=
  .jobj (jobj_of [("score", .jnum c.score),
    ("components", .jobj (jobj_of [("presence", .jnum c.presence),
      ("pattern", .jnum c.pattern), ("kg", .jnum c.kg)])),
    ("explanation", .jstr c.explanation)])

def severitymap_to_jval (m : List (String × SeverityResult)) : JVal :=
  .jobj (jobj_of (m.map (fun kv => (kv.1, severity_to_jval kv.2))))

/-- Python `os.path.basename` for POSIX paths. -/
def path_basename (p : String) : String :=
  String.mk ((p.toList.reverse.takeWhile (fun c => !(c == '/'))).reverse)

/-- Split a character list on dots. -/
def split_dots : List Char → List (List Char)
  | [] => [[]]
  | c :: cs =>
    let r := split_dots cs
    if c = '.' then [] :: r
    else
      match r with
      | [] => [[c]]
      | h :: t => (c :: h) :: t

/-- The stem of Python `os.path.splitext`: everything before the final
extension dot, with a basename of only leading dots kept whole. -/
def splitext_stem (name : String) : String :=
  let parts := (split_dots name.toList).map (fun cs => String.mk cs)
  if parts.length ≤ 1 then name
  else
    let stem := join_sep "." parts.dropLast
    if stem.toList.all (fun c => c == '.') then name else stem

/-- The structured record produced by the Loader
(`{age?, gender?, parameters, status, notes}`). -/
structure LoadedRecord where
  age : Option ℚ
  gender : Option String
  parameters : List (String × Option ℚ)
  status : List (String × String)
  notes : List (String × String)

/-- The reasoning core of `run` (`model2_runner.py`), from the loaded
record to the sanitized output document: derived hook, pattern detection,
observation extraction, probable-cause inference, severity map, confidence,
assembly, guardrail.  The input path enters only through the `metadata`
entry; file persistence and error logging sit outside the document. -/
def run_core (cfg : Config) (rec : LoadedRecord) (input_path : String) : JObj :=
  let base := path_basename input_path
  let base_noext := splitext_stem base
  let missing_params := (rec.parameters.filter (fun kv => kv.2.isNone)).map Prod.fst
  let derived := cfg.derivedFn rec.parameters
  let patterns := detect_patterns cfg rec.parameters rec.age rec.gender
  let observations := extract_observations patterns rec.status rec.parameters
    (cfg.ranges rec.age rec.gender)
  let probable := infer_probable_causes cfg.kg observations cfg.priors
  let cardio := cfg.cardioFn rec.parameters derived
  let sev := severity_map cfg rec.parameters rec.age rec.gender
  let confidence := compute_confidence rec.parameters patterns probable missing_params
  let metadata : JVal := .jobj (.ocons "input_file" (.jstr input_path)
    (.ocons "base" (.jstr base_noext) .onil))
  sanitize_output (assemble_output metadata (params_to_jval rec.parameters)
    (strmap_to_jval rec.status) (strmap_to_jval rec.notes) derived
    (patterns_to_jval patterns) (probable_to_jval probable) cardio
    (severitymap_to_jval sev) (confidence_to_jval confidence))

/-- C10 amended: the reasoning core is a pure function of the loaded record
and the input path; two runs on the same record agree on the whole document
outside the `metadata` entry, whose `input_file` *and* `base` fields are
both derived from the input path. -/
theorem C10_determinism (cfg : Config) (rec : LoadedRecord) (p1 p2 : String) :
    jobj_remove (run_core cfg rec p1) "metadata" =
      jobj_remove (run_core cfg rec p2) "metadata" := rfl

/-- Trivial configuration and record for the C10 counterexample. -/
def c10_cfg : Config :=
  ⟨fun _ _ _ => none, [], [], fun _ => .jnull, fun _ _ => .jnull⟩

def c10_rec : LoadedRecord := ⟨none, none, [], [], []⟩

/-- C10 counterexample: two byte-identical (here: empty) records processed
under paths `a.csv` and `b.csv` produce documents that differ not only in
`metadata.input_file` but also in `metadata.base` (`"a"` vs `"b"`), so the
outputs are not identical-except-`input_file`. -/
theorem C10_counterexample :
    jobj_get (run_core c10_cfg c10_rec "a.csv") "metadata" =
      some (.jobj (.ocons "input_file" (.jstr "a.csv")
        (.ocons "base" (.jstr "a") .onil))) ∧
    jobj_get (run_core c10_cfg c10_rec "b.csv") "metadata" =
      some (.jobj (.ocons "input_file" (.jstr "b.csv")
        (.ocons "base" (.jstr "b") .onil))) ∧
    (jobj_get (run_core c10_cfg c10_rec "a.csv") "metadata").map
        (fun m => jobj_get (match m with | .jobj o => o | _ => .onil) "base") ≠
      (jobj_get (run_core c10_cfg c10_rec "b.csv") "metadata").map
        (fun m => jobj_get (match m with | .jobj o => o | _ => .onil) "base") := by
  refine ⟨?_, ?_, ?_⟩
  · decide
  · decide
  · decide

/-- Witness for `C9_explanation_thresholds` with one missing parameter and
high presence/pattern components. -/
theorem C9_explanation_thresholds_witness :
    (["Hemoglobin"] : List String) ≠ [] ∧
    (∃ mid, build_confidence_explanation (9/10) (9/10) ["Hemoglobin"] =
      "Moderate confidence because " ++
        (mid ++ missing_list_text ["Hemoglobin"]) ++ ".") :=
  ⟨by decide, (C9_explanation_thresholds (9/10) (9/10) ["Hemoglobin"]).2 (by decide)⟩
